import Mathlib

/-!
Verification of the solar-panel inverter simulator.

This file gives a shallow embedding of the parts of the simulator that the
verified properties speak about:

* the Modbus register layer (`src/modbus_server.rs` together with the
  register-map construction in `src/main.rs`);
* the online-weather shortcut of `src/services/power_service.rs`;
* the offline solar estimator of `src/services/solar_algorithm.rs`;
* the plant state engine `AppState::set_data` of `src/shared_state.rs`.

Real-valued quantities are modelled over `ℚ`.  Transcendental
subexpressions (trigonometric functions, exponentials, and the outputs of
the deterministic `det_hash` pseudo-random hash) are passed in as explicit
parameters, so every theorem below quantifies over all values those
subexpressions can take; the arithmetic, branching and clamping structure
of the source is reproduced literally.  IEEE-754 `f32` values that cross
the Modbus wire are modelled by their 32-bit patterns (`to_bits`), since
the register layer only splits and transports bits.
-/

namespace SolarSim

/-- Rust `f64::clamp(lo, hi)`: `lo` if below, `hi` if above, else the value. -/
def clampQ (x lo hi : ℚ) : ℚ :=
  if x < lo then lo else if x > hi then hi else x

/-- Rust `f64::max`: the greater of the two arguments. -/
def maxQ (a b : ℚ) : ℚ := if a < b then b else a

/-- Rust `f64::min`: the smaller of the two arguments. -/
def minQ (a b : ℚ) : ℚ := if a < b then a else b

/-- Rust `f64::abs`. -/
def absQ (a : ℚ) : ℚ := if a < 0 then -a else a

/-- Rust `as u16` on a nonnegative finite float: truncation toward zero. -/
def truncNatQ (x : ℚ) : ℕ := (x.num / (x.den : ℤ)).toNat

/-! ## Modbus register layer (`src/modbus_server.rs`, map built in `src/main.rs`) -/

/-- Register variable kinds, from `enum VariableType` in `src/modbus_server.rs`. -/
inductive VariableType where
  | powerKw | voltageL1V | voltageL2V | voltageL3V
  | currentL1A | currentL2A | currentL3A
  | frequencyHz | rocofHzS
  | temperatureC | inverterTempC | ambientTempC
  | dcVoltageV | dcCurrentA | dcPowerKw
  | mpptVoltageV | mpptCurrentA
  | reactivePowerKvar | apparentPowerKva | powerFactor
  | efficiencyPct | poaIrradianceWM2 | solarElevationDeg
  | performanceRatio | specificYieldKwhKwp | capacityFactorPct
  | isolationMohm
  | dailyEnergyKwh | monthlyEnergyKwh | totalEnergyKwh
  | status | faultCode | alarmFlags
deriving DecidableEq, Repr

/-- The projection of one `PlantData` snapshot that the Modbus service reads:
the three raw `u16` fields, and for every float-typed variable the 32-bit
IEEE-754 single pattern `((value as f32).to_bits())` of the field. -/
structure DataView where
  status : ℕ
  fault_code : ℕ
  alarm_flags : ℕ
  fbits : VariableType → ℕ

/-- Rust `float_to_words`: split a 32-bit IEEE-754 single pattern into the
big-endian `(high, low)` pair of 16-bit words (`bits >> 16` cast to `u16`,
and `bits & 0xFFFF`). -/
def float_to_words (bits : ℕ) : ℕ × ℕ :=
  ((bits / 2 ^ 16) % 2 ^ 16, bits % 2 ^ 16)

/-- Register offsets, from the `REG_*` constants of `src/modbus_server.rs`,
paired with their variable and word index in the insertion order of the
register-map construction loop in `src/main.rs`.  A float variable inserts
word 0 at its offset and word 1 at offset+1 (`ins_f!`); a `u16` variable
inserts a single entry (`ins_u!`). -/
def insF (off : ℕ) (vt : VariableType) : List (ℕ × VariableType × ℕ) :=
  [(off, vt, 0), (off + 1, vt, 1)]

/-- Single-register insertion (`ins_u!` in `src/main.rs`). -/
def insU (off : ℕ) (vt : VariableType) : List (ℕ × VariableType × ℕ) :=
  [(off, vt, 0)]

/-- One plant's register entries, in the insertion order of `src/main.rs`.
Offsets are the `REG_*` constants of `src/modbus_server.rs`. -/
def plantEntries : List (ℕ × VariableType × ℕ) :=
  insF 0 .powerKw ++ insF 2 .voltageL1V ++ insF 4 .currentL1A ++
  insF 6 .frequencyHz ++ insF 8 .temperatureC ++ insU 10 .status ++
  insF 11 .voltageL2V ++ insF 13 .voltageL3V ++ insF 15 .currentL2A ++
  insF 17 .currentL3A ++ insF 19 .reactivePowerKvar ++
  insF 21 .apparentPowerKva ++ insF 23 .powerFactor ++ insF 25 .rocofHzS ++
  insF 27 .dcVoltageV ++ insF 29 .dcCurrentA ++ insF 31 .dcPowerKw ++
  insF 33 .mpptVoltageV ++ insF 35 .mpptCurrentA ++
  insF 37 .inverterTempC ++ insF 39 .ambientTempC ++
  insF 41 .efficiencyPct ++ insF 43 .poaIrradianceWM2 ++
  insF 45 .solarElevationDeg ++ insF 47 .performanceRatio ++
  insF 49 .specificYieldKwhKwp ++ insF 51 .capacityFactorPct ++
  insF 53 .isolationMohm ++ insU 55 .faultCode ++ insU 56 .alarmFlags ++
  insF 57 .dailyEnergyKwh ++ insF 59 .monthlyEnergyKwh ++
  insF 61 .totalEnergyKwh

/-- The register map for one plant block based at `base`.  All keys of the
`HashMap` built in `src/main.rs` are distinct, so the lookup agrees with
the first matching entry of the insertion list. -/
def regMap (base addr : ℕ) : Option (VariableType × ℕ) :=
  (plantEntries.find? (fun e => base + e.1 == addr)).map (fun e => e.2)

/-- The per-register `resolve` closure of `MbService::call`: look the
address up in the register map, perform `state.get_data` for the plant
(`snap` is the snapshot that this particular call observes; `none` when
the plant has produced no data yet), and serve the requested word.
Unmapped addresses and missing plant data give `0`. -/
def resolve (base : ℕ) (snap : Option DataView) (addr : ℕ) : ℕ :=
  match regMap base addr with
  | none => 0
  | some (vt, word_idx) =>
    match snap with
    | none => 0
    | some d =>
      match vt with
      | .status => d.status
      | .faultCode => d.fault_code
      | .alarmFlags => d.alarm_flags % 2 ^ 16
      | _ =>
        let w := float_to_words (d.fbits vt)
        if word_idx = 0 then w.1 else w.2

/-- Modbus requests relevant to the service: the two supported read
function codes, plus a stand-in for every other function code. -/
inductive MbRequest where
  | readInputRegisters (addr cnt : ℕ)
  | readHoldingRegisters (addr cnt : ℕ)
  | otherFunction
deriving DecidableEq, Repr

/-- Modbus responses produced by the service. -/
inductive MbResponse where
  | readInputRegisters (regs : List ℕ)
  | readHoldingRegisters (regs : List ℕ)
deriving DecidableEq, Repr

/-- Modbus exception codes produced by the service. -/
inductive MbException where
  | illegalFunction
deriving DecidableEq, Repr

/-- `MbService::call`: each register index in the requested range performs
its own `state.get_data` call inside `resolve`; `snaps i` is the snapshot
observed by the resolution of the `i`-th register.  A schedule in which a
concurrent `set_data` completes between two resolutions is modelled by a
non-constant `snaps`. -/
def mbCall (base : ℕ) (snaps : ℕ → Option DataView) :
    MbRequest → Except MbException MbResponse
  | .readInputRegisters addr cnt =>
      .ok (.readInputRegisters
        ((List.range cnt).map fun i => resolve base (snaps i) (addr + i)))
  | .readHoldingRegisters addr cnt =>
      .ok (.readHoldingRegisters
        ((List.range cnt).map fun i => resolve base (snaps i) (addr + i)))
  | .otherFunction => .error .illegalFunction

/-- The float-typed fields of the register layout with their offsets
(the `ins_f!` insertions of `src/main.rs`). -/
def floatFields : List (ℕ × VariableType) :=
  [(0, .powerKw), (2, .voltageL1V), (4, .currentL1A), (6, .frequencyHz),
   (8, .temperatureC), (11, .voltageL2V), (13, .voltageL3V),
   (15, .currentL2A), (17, .currentL3A), (19, .reactivePowerKvar),
   (21, .apparentPowerKva), (23, .powerFactor), (25, .rocofHzS),
   (27, .dcVoltageV), (29, .dcCurrentA), (31, .dcPowerKw),
   (33, .mpptVoltageV), (35, .mpptCurrentA), (37, .inverterTempC),
   (39, .ambientTempC), (41, .efficiencyPct), (43, .poaIrradianceWM2),
   (45, .solarElevationDeg), (47, .performanceRatio),
   (49, .specificYieldKwhKwp), (51, .capacityFactorPct),
   (53, .isolationMohm), (57, .dailyEnergyKwh), (59, .monthlyEnergyKwh),
   (61, .totalEnergyKwh)]

/-- A concrete snapshot whose float fields all carry the bit pattern
`0x42F70000`, the IEEE-754 single encoding of `123.5`. -/
def wView : DataView := ⟨2, 0, 0, fun _ => 1123418112⟩

/-- Snapshot holding the float pattern `0x00010002` in every float field. -/
def snapA : DataView := ⟨0, 0, 0, fun _ => 65538⟩

/-- Snapshot holding the float pattern `0x00030004` in every float field. -/
def snapB : DataView := ⟨0, 0, 0, fun _ => 196612⟩

/-- A schedule in which a concurrent `set_data` completes between the two
register resolutions of one request: the first `get_data` observes
`snapA`, the second `snapB`. -/
def tornSchedule : ℕ → Option DataView := fun i => if i = 0 then some snapA else some snapB

/-! ## Online weather shortcut (`src/services/power_service.rs`) -/

/-- Rust `estimate_cell_temperature`: NOCT model,
`T_cell = T_ambient + (NOCT − 20) · G / 800` with `NOCT = 45`. -/
def estimate_cell_temperature (ambient_temp_c g_w_m2 : ℚ) : ℚ :=
  ambient_temp_c + (45 - 20) * (g_w_m2 / 800)

/-- Rust `estimate_power_kw_from_radiation`:
`max(0, P_nom · (G/1000) · (1 + α·(T_cell − 25)))` with `α = −0.004`. -/
def estimate_power_kw_from_radiation (g_w_m2 nominal_power_kw cell_temp_c : ℚ) : ℚ :=
  maxQ (nominal_power_kw * (g_w_m2 / 1000) * (1 + (-4/1000) * (cell_temp_c - 25))) 0

/-- The `SimulationData` value (src/models/power.rs) produced per tick. -/
structure SimulationData where
  power_kw : ℚ
  temperature_c : ℚ
  ambient_temp_c : ℚ
  weather_code : ℕ
  is_day : Bool
  poa_irradiance_w_m2 : ℚ
  cloud_factor : ℚ
  solar_elevation_deg : ℚ
deriving DecidableEq, Repr

/-- The successfully-parsed branch of `get_current_data`: the
`SimulationData` built from an online weather response carrying shortwave
radiation `g`, 2-metre temperature `ambient_t`, weather code and day flag
(after the `unwrap_or` defaults have been applied). -/
def get_current_data_success (g ambient_t : ℚ) (weather_c : ℕ) (is_day : Bool)
    (nominal_power_kw : ℚ) : SimulationData :=
  let cell_temp := estimate_cell_temperature ambient_t g
  { power_kw := estimate_power_kw_from_radiation g nominal_power_kw cell_temp
    temperature_c := cell_temp
    ambient_temp_c := ambient_t
    weather_code := weather_c
    is_day := is_day
    poa_irradiance_w_m2 := g
    cloud_factor := if g > 10 then minQ (g / 1000) 1 else 0
    solar_elevation_deg := 0 }

/-! ## Offline solar estimator (`src/services/solar_algorithm.rs`)

The solar-geometry step (declination, equation of time, hour angle) and
the transcendental factors of the Bird clear-sky chain are abstracted as
parameters of the pipeline: `alpha_deg` is the solar elevation the
geometry step computed, and the other fields carry the values of the
corresponding trigonometric / exponential / hash subexpressions.  The
branching, clamping and arithmetic from step 4 (clear-sky) to step 10
(weather code) of `estimate` are reproduced literally. -/

/-- Abstracted transcendental inputs of the `estimate` pipeline. -/
structure EstParams where
  lat_deg : ℚ
  doy : ℚ
  alpha_deg : ℚ
  sin_alpha : ℚ
  cos_alpha : ℚ
  /-- `(ghi_cs, dni_cs)` of the Bird and Hulstrom branch taken when
  `alpha_deg > 0.1`; the air-mass and transmittance chain inside that
  branch uses `exp`/`powf` and is abstracted as this pair. -/
  clear_sky : ℚ × ℚ
  tilt_cos : ℚ
  tilt_sin : ℚ
  az_diff_cos : ℚ
  /-- Value of `cloud_attenuation(lat, doy, ut_h, lon)`. -/
  cloud_base : ℚ
  /-- The 5-minute stochastic hash value `trans_val` in `[0,1)`. -/
  trans_val : ℚ
  ambient_temp_c : ℚ
  wind_speed : ℚ
  relative_humidity : ℚ
  soiling_factor : ℚ

/-- Output record of `estimate` (`struct OfflineEstimate`). -/
structure OfflineEstimate where
  power_kw : ℚ
  ghi_w_m2 : ℚ
  cell_temp_c : ℚ
  ambient_temp_c : ℚ
  weather_code : ℕ
  is_day : Bool
  cloud_factor : ℚ
  solar_elevation_deg : ℚ
  wind_speed_m_s : ℚ
  relative_humidity_pct : ℚ
  soiling_factor : ℚ
deriving DecidableEq, Repr

/-- Rust `synthetic_weather_code`: WMO-like code thresholded on the cloud
factor and a high-latitude winter snow estimate. -/
def synthetic_weather_code (cloud_factor alpha_deg doy lat_deg : ℚ) : ℕ :=
  if alpha_deg ≤ 0 then 0
  else
    let winter_day := if lat_deg ≥ 0 then doy < 60 ∨ doy > 330 else doy > 150 ∧ doy < 270
    let snow_likely := |lat_deg| > 40 ∧ winter_day
    if cloud_factor > 85/100 then 0
    else if cloud_factor > 75/100 then 1
    else if cloud_factor > 60/100 then 2
    else if cloud_factor > 45/100 then 3
    else if cloud_factor > 35/100 then (if snow_likely then 71 else 61)
    else if cloud_factor > 25/100 then (if snow_likely then 73 else 63)
    else (if snow_likely then 75 else 65)

/-- Steps 4–10 of `solar_algorithm::estimate`: clear-sky gating on
`alpha_deg > 0.1`, plane-of-array transposition, cloud attenuation,
Faiman cell temperature, soiling and the final DC power rule. -/
def estimate (nominal_power_kw : ℚ) (p : EstParams) : OfflineEstimate :=
  let gd := if p.alpha_deg > 1/10 then p.clear_sky else ((0 : ℚ), (0 : ℚ))
  let ghi_cs := gd.1
  let dni_cs0 := gd.2
  let cos_theta :=
    if p.alpha_deg > 1/10 then
      maxQ (p.sin_alpha * p.tilt_cos + p.cos_alpha * p.tilt_sin * p.az_diff_cos) 0
    else 0
  let beam_poa := dni_cs0 * cos_theta
  let dhi_cs := maxQ (ghi_cs - dni_cs0 * maxQ p.sin_alpha 0) 0
  let diffuse_poa := dhi_cs * (1 + p.tilt_cos) / 2
  let reflected_poa := ghi_cs * (20/100) * (1 - p.tilt_cos) / 2
  let ghi_poa_cs := maxQ (beam_poa + diffuse_poa + reflected_poa) 0
  let cloud_transient := (p.trans_val * 2 - 1) * (18/100)
  let cloud_factor := clampQ (p.cloud_base + cloud_transient) (5/100) 1
  let ghi_poa := ghi_poa_cs * cloud_factor
  let cell_temp := p.ambient_temp_c + ghi_poa / (25 + (684/100) * p.wind_speed)
  let temp_factor := 1 + (-(4/1000)) * (cell_temp - 25)
  let effective_ghi := ghi_poa * p.soiling_factor
  let power_kw := maxQ (nominal_power_kw * (effective_ghi / 1000) * temp_factor) 0
  { power_kw := power_kw
    ghi_w_m2 := ghi_poa
    cell_temp_c := cell_temp
    ambient_temp_c := p.ambient_temp_c
    weather_code := synthetic_weather_code cloud_factor p.alpha_deg p.doy p.lat_deg
    is_day := decide (p.alpha_deg > 0) && decide (ghi_poa > 1/2)
    cloud_factor := cloud_factor
    solar_elevation_deg := p.alpha_deg
    wind_speed_m_s := p.wind_speed
    relative_humidity_pct := p.relative_humidity
    soiling_factor := p.soiling_factor }

/-! ## Plant state engine (`AppState::set_data` in `src/shared_state.rs`)

The update is modelled as a pure step function from the previous
`PlantData` record (plus the per-plant `prev_freq` memory) and the tick's
inputs to the new record, together with the list of alarm codes whose
`raise_alarm` call fires this tick.  The values of the deterministic
`det_hash` epoch hashes — each in `[0,1)` by construction — and the two
transcendental terms of the power-factor model are abstracted as
parameters.  The one field of `PlantData` not modelled is
`reactive_power_kvar`, whose computation takes a real square root and
which no verified property mentions. -/

/-! Alarm codes, from `mod alarm_codes` in `src/models/power.rs`. -/
namespace alarm_codes

def NONE : ℕ := 0
def AC_OVERVOLTAGE : ℕ := 101
def AC_UNDERVOLTAGE : ℕ := 102
def AC_OVERFREQUENCY : ℕ := 103
def AC_UNDERFREQUENCY : ℕ := 104
def ROCOF_TRIP : ℕ := 105
def DC_OVERVOLTAGE : ℕ := 201
def ISOLATION_FAULT : ℕ := 301
def GROUND_FAULT : ℕ := 302
def OVERTEMPERATURE : ℕ := 401
def FAN_FAULT : ℕ := 402

end alarm_codes

/-! Alarm flag bits, from `mod alarm_flag_bits` in `src/models/power.rs`:
bits 0–4 as declared there.  Modelled from the spec: `set_data` also uses
`LEAKAGE_CURRENT`, `FAN_FAULT`, `DC_OVERVOLTAGE` and `ROCOF_TRIP` bits
whose numeric values are absent from the source snapshot (the
`alarm_flag_bits` module predates them); the spec's taxonomy only fixes
that each is a distinct bit of the mask, so they take the next free bits
8–11. -/
namespace alarm_flag_bits

def AC_OVERVOLTAGE : ℕ := 1
def AC_UNDERVOLTAGE : ℕ := 2
def FREQUENCY_FAULT : ℕ := 4
def ISOLATION_FAULT : ℕ := 8
def OVERTEMPERATURE : ℕ := 16
def LEAKAGE_CURRENT : ℕ := 256
def FAN_FAULT : ℕ := 512
def DC_OVERVOLTAGE : ℕ := 1024
def ROCOF_TRIP : ℕ := 2048

end alarm_flag_bits

/-- The mutable per-plant record (`struct PlantData` in
`src/models/power.rs`, including the fields of the spec's data model that
the `set_data` revision writes), over `ℚ`. -/
structure PlantData where
  power_kw : ℚ
  voltage_l1_v : ℚ
  voltage_l2_v : ℚ
  voltage_l3_v : ℚ
  current_l1_a : ℚ
  current_l2_a : ℚ
  current_l3_a : ℚ
  frequency_hz : ℚ
  rocof_hz_s : ℚ
  power_factor : ℚ
  apparent_power_kva : ℚ
  dc_voltage_v : ℚ
  dc_current_a : ℚ
  dc_power_kw : ℚ
  mppt_voltage_v : ℚ
  mppt_current_a : ℚ
  string1_voltage_v : ℚ
  string1_current_a : ℚ
  string2_voltage_v : ℚ
  string2_current_a : ℚ
  temperature_c : ℚ
  inverter_temp_c : ℚ
  ambient_temp_c : ℚ
  inverter_fan_speed_rpm : ℕ
  fan_fault_active : Bool
  efficiency_percent : ℚ
  poa_irradiance_w_m2 : ℚ
  solar_elevation_deg : ℚ
  cloud_factor : ℚ
  wind_speed_m_s : ℚ
  relative_humidity_pct : ℚ
  soiling_factor : ℚ
  ac_thd_percent : ℚ
  dc_injection_ma : ℚ
  isolation_resistance_mohm : ℚ
  leakage_current_ma : ℚ
  status : ℕ
  fault_code : ℕ
  alarm_flags : ℕ
  weather_code : ℕ
  is_day : Bool
  daily_energy_kwh : ℚ
  monthly_energy_kwh : ℚ
  total_energy_kwh : ℚ
  co2_avoided_kg : ℚ
  daily_peak_power_kw : ℚ
  last_day_reset : ℕ
  performance_ratio : ℚ
  specific_yield_kwh_kwp : ℚ
  capacity_factor_percent : ℚ
  ramp_factor : ℚ

/-- The record a lazily created plant entry starts from
(`impl Default for PlantData` in `src/models/power.rs`; the counters and
book-keeping fields missing from that older-revision impl are modelled
from the spec: energy counters, peak, `ramp_factor` and the
`last_day_reset` ordinal start at zero, so that the first tick records
the ordinal without clearing). -/
def PlantData.initial : PlantData where
  power_kw := 0
  voltage_l1_v := 230
  voltage_l2_v := 230
  voltage_l3_v := 230
  current_l1_a := 0
  current_l2_a := 0
  current_l3_a := 0
  frequency_hz := 50
  rocof_hz_s := 0
  power_factor := 1
  apparent_power_kva := 0
  dc_voltage_v := 600
  dc_current_a := 0
  dc_power_kw := 0
  mppt_voltage_v := 600
  mppt_current_a := 0
  string1_voltage_v := 600
  string1_current_a := 0
  string2_voltage_v := 600
  string2_current_a := 0
  temperature_c := 25
  inverter_temp_c := 35
  ambient_temp_c := 20
  inverter_fan_speed_rpm := 0
  fan_fault_active := false
  efficiency_percent := 0
  poa_irradiance_w_m2 := 0
  solar_elevation_deg := 0
  cloud_factor := 1
  wind_speed_m_s := 0
  relative_humidity_pct := 50
  soiling_factor := 1
  ac_thd_percent := 0
  dc_injection_ma := 0
  isolation_resistance_mohm := 10
  leakage_current_ma := 0
  status := 0
  fault_code := 0
  alarm_flags := 0
  weather_code := 0
  is_day := false
  daily_energy_kwh := 0
  monthly_energy_kwh := 0
  total_energy_kwh := 0
  co2_avoided_kg := 0
  daily_peak_power_kw := 0
  last_day_reset := 0
  performance_ratio := 0
  specific_yield_kwh_kwp := 0
  capacity_factor_percent := 0
  ramp_factor := 0

/-- The per-tick inputs of `set_data` (its parameter list), plus the two
time-derived values the body reads: `Utc::now().ordinal()` and the
`prev_freq` map entry for this plant (`none` before the first tick). -/
structure TickInput where
  dc_power : ℚ
  temperature_c : ℚ
  ambient_temp_c : ℚ
  nominal_power_kw : ℚ
  weather_code : ℕ
  is_day : Bool
  poa_irradiance_w_m2 : ℚ
  cloud_factor : ℚ
  solar_elevation_deg : ℚ
  wind_speed_m_s : ℚ
  relative_humidity_pct : ℚ
  soiling_factor : ℚ
  today_doy : ℕ
  prev_freq : Option ℚ

/-- The values of the `det_hash` calls of one `set_data` tick — each lies
in `[0,1)` by construction of the hash — and the two transcendental terms
of the power-factor model, abstracted as parameters. -/
structure Noise where
  h_str : ℚ
  h_ot : ℚ
  h_swell : ℚ
  h_sag : ℚ
  h_freq_hi : ℚ
  h_freq_lo : ℚ
  h_vdrift : ℚ
  h_rip : ℚ
  h_ph : ℚ
  h_ph2 : ℚ
  h_fdrift : ℚ
  h_frip : ℚ
  h_thd : ℚ
  h_dc_inj : ℚ
  h_wet : ℚ
  h_leak : ℚ
  h_fan : ℚ
  /-- Value of `(-12.0 * load_factor).exp()` in the power-factor base. -/
  pf_exp : ℚ
  /-- Value of `(ac_power * 11.7).sin()` in the power-factor noise. -/
  pf_sin : ℚ

/-- Rust `try_set_fault`: assign only when no code is set yet. -/
def try_set_fault (code new_code : ℕ) : ℕ :=
  if code = alarm_codes.NONE then new_code else code

/-- The ordered sequence of guarded `try_set_fault` calls of one tick,
starting from `NONE`. -/
def foldFault (l : List (Bool × ℕ)) : ℕ :=
  l.foldl (fun acc p => if p.1 then try_set_fault acc p.2 else acc) alarm_codes.NONE

/-- First-match priority assignment, as the spec words it: the first
condition in the list that holds contributes its code. -/
def firstFault : List (Bool × ℕ) → ℕ
  | [] => alarm_codes.NONE
  | (b, c) :: t => if b then c else firstFault t

/-- Result of one `set_data` tick: the new record, and the codes of the
`raise_alarm` calls the tick performs, in program order. -/
structure TickResult where
  data : PlantData
  raised : List ℕ

/-- `AppState::set_data`: the full derivation of one tick, translated
statement by statement from `src/shared_state.rs`. -/
def set_data (prev : PlantData) (inp : TickInput) (nz : Noise) : TickResult :=
  -- step 1b: midnight daily-energy reset
  let reset0 := prev.last_day_reset = 0
  let resetDay := prev.last_day_reset ≠ inp.today_doy
  let daily0 := if reset0 then prev.daily_energy_kwh
    else if resetDay then 0 else prev.daily_energy_kwh
  let peak0 := if reset0 then prev.daily_peak_power_kw
    else if resetDay then 0 else prev.daily_peak_power_kw
  let ldr := if reset0 then inp.today_doy
    else if resetDay then inp.today_doy else prev.last_day_reset
  -- step 2: MPPT startup / shutdown ramp
  let ramp_target :=
    if inp.poa_irradiance_w_m2 ≥ 30 ∧ inp.is_day = true then (1 : ℚ)
    else if inp.poa_irradiance_w_m2 < 15 then 0
    else prev.ramp_factor
  let ramp := clampQ (prev.ramp_factor + (ramp_target - prev.ramp_factor) * (8/100)) 0 1
  -- step 2b: DC side, dual-MPPT strings
  let irr_ratio := clampQ (inp.poa_irradiance_w_m2 / 1000) 0 (11/10)
  let mppt_v := 700 * (80/100) * (1 + (-(35/10000)) * (inp.temperature_c - 25))
  let dc_v := mppt_v * (105/100)
  let dc_power_ramped := inp.dc_power * ramp
  let dc_a := if dc_v > 1 then dc_power_ramped * 1000 / dc_v else 0
  let mppt_a := if mppt_v > 1 then dc_power_ramped * 1000 / mppt_v else 0
  -- step 2c: dual-string imbalance
  let str_imb := (nz.h_str * 2 - 1) * (8/100)
  let str1_frac := clampQ ((50/100) + str_imb) (30/100) (70/100)
  -- DC overvoltage check
  let v_oc_est := mppt_v / (80/100)
  let dc_ov := v_oc_est > 700 * (110/100)
  -- step 3: inverter efficiency curve
  let load_factor := if inp.nominal_power_kw > 0 then dc_power_ramped / inp.nominal_power_kw else 0
  let inv_eff :=
    if load_factor < 1/100 then (0 : ℚ)
    else if load_factor < 1/10 then (80/100) + (load_factor / (1/10)) * (155/1000)
    else if load_factor < 1/2 then (955/1000) + ((load_factor - 1/10) / (4/10)) * (25/1000)
    else (980/1000) - ((load_factor - 1/2) / (1/2)) * (8/1000)
  let temp_loss := maxQ (inp.temperature_c - 25) 0 * (4/10000)
  let efficiency := clampQ (inv_eff - temp_loss) 0 (999/1000)
  -- step 4: AC active power
  let ac_power := dc_power_ramped * efficiency
  -- step 5: heatsink thermal model
  let p_loss := dc_power_ramped - ac_power
  let loss_fraction := if inp.nominal_power_kw > 0 then p_loss / inp.nominal_power_kw else 0
  let t_hs_target :=
    if nz.h_ot < 5/1000 ∧ inp.is_day = true then 80 + 5 + (nz.h_ot / (5/1000)) * 10
    else inp.ambient_temp_c + 20 + clampQ loss_fraction 0 1 * 65
  let inv_temp := prev.inverter_temp_c + (t_hs_target - prev.inverter_temp_c) * (2/10)
  -- step 6: 3-phase AC voltage and frequency with epoch fault injection
  let v_drift := (nz.h_vdrift * 2 - 1) * 4
  let v_ripple := (nz.h_rip * 2 - 1) * (4/10)
  let v_offset :=
    if nz.h_swell < 25/1000 then 28 + (nz.h_swell / (25/1000)) * 18
    else if nz.h_sag < 25/1000 then -(28 + (nz.h_sag / (25/1000)) * 18)
    else v_drift + v_ripple
  let v_l1 := 230 + v_offset
  let v_l2 := 230 + v_offset + (nz.h_ph * 2 - 1) * (1/2)
  let v_l3 := 230 + v_offset - (nz.h_ph2 * 2 - 1) * (1/2)
  let f_drift := (nz.h_fdrift * 2 - 1) * (8/100)
  let f_ripple := (nz.h_frip * 2 - 1) * (1/100)
  let f_offset :=
    if nz.h_freq_hi < 15/1000 then (55/100) + (nz.h_freq_hi / (15/1000)) * (25/100)
    else if nz.h_freq_lo < 15/1000 then -((55/100) + (nz.h_freq_lo / (15/1000)) * (25/100))
    else f_drift + f_ripple
  let new_freq := 50 + f_offset
  let prev_f := inp.prev_freq.getD new_freq
  let rocof := (new_freq - prev_f) / 5
  -- step 7: power factor and apparent power
  let power_factor :=
    if ac_power > 1/100 then
      clampQ ((96/100) + (4/100) * (1 - nz.pf_exp) + nz.pf_sin * (4/1000)) (80/100) 1
    else 1
  let apparent := if power_factor > 0 then ac_power / power_factor else ac_power
  -- step 7b: AC total harmonic distortion
  let thd_at_load :=
    if load_factor < 2/100 then (0 : ℚ)
    else if load_factor < 1/10 then 12 - (load_factor / (1/10)) * (75/10)
    else if load_factor < 1/2 then (45/10) - ((load_factor - 1/10) / (4/10)) * (27/10)
    else (18/10) + ((load_factor - 1/2) / (1/2)) * (1/2)
  let thd := maxQ (thd_at_load + (nz.h_thd * 2 - 1) * (2/10)) 0
  -- step 7c: DC injection into the AC grid
  let i_rated := if (230 : ℚ) > 0 then inp.nominal_power_kw * 1000 / (3 * 230) else 0
  let dc_inj := if ac_power > 1/100 then i_rated * ((5/100) + nz.h_dc_inj * (45/100)) / 100 * 1000 else 0
  -- step 8: phase currents
  let phase_va := apparent * 1000 / 3
  let i_l1 := if v_l1 > 0 then phase_va / v_l1 else 0
  let i_l2 := if v_l2 > 0 then phase_va / v_l2 else 0
  let i_l3 := if v_l3 > 0 then phase_va / v_l3 else 0
  -- step 9: isolation resistance
  let isol_base :=
    if nz.h_wet < 15/1000 ∧ inp.is_day = true then (5/100) + (nz.h_wet / (15/1000)) * (35/100)
    else 10 + irr_ratio * 30
  let dew_factor :=
    if inp.is_day = true ∧ inp.solar_elevation_deg < 20 then
      (30/100) + (inp.solar_elevation_deg / 20) * (70/100)
    else 1
  let isol := maxQ (isol_base * dew_factor) (5/100)
  -- step 9b: leakage current to ground
  let leak_humidity_factor := 1 + maxQ (inp.relative_humidity_pct - 50) 0 * (12/1000)
  let leak_base := (1 / maxQ isol (1/100)) * (25/10) * leak_humidity_factor
  let leak := clampQ (leak_base + nz.h_leak * (1/2)) (5/100) 350
  -- step 9c: cooling fan model
  let fan_fail := decide (nz.h_fan < 8/1000) && inp.is_day
  let fan_rpm : ℕ :=
    if inv_temp < 40 then 0
    else if fan_fail = true then 0
    else truncNatQ ((1500 : ℚ) + clampQ ((inv_temp - 40) / 40) 0 1 * 2100)
  -- step 10: status determination
  let v_avg := (v_l1 + v_l2 + v_l3) / 3
  let has_fault := v_avg > 253 ∨ v_avg < 207
    ∨ new_freq > 101/2 ∨ new_freq < 99/2
    ∨ absQ rocof > 1
    ∨ isol < 1/2
    ∨ inv_temp > 80
    ∨ (fan_fail = true ∧ inv_temp > 80 - 5)
    ∨ dc_ov
  let status : ℕ :=
    if has_fault then 2
    else if ramp < 5/100 ∧ inp.poa_irradiance_w_m2 < 30 then 0
    else if ramp < 99/100 ∧ inp.poa_irradiance_w_m2 ≥ 30 then 4
    else if ramp > 0 ∧ ramp < 1 ∧ inp.poa_irradiance_w_m2 < 30 then 3
    else if ac_power > 1/1000 then (if load_factor < 999/1000 then 5 else 1)
    else if inp.is_day = true ∧ inp.solar_elevation_deg > 1 then 4
    else 0
  -- step 11: alarm and fault-code logic, in program order
  let c101 := v_avg > 253
  let c102 := v_avg < 207 ∧ inp.is_day = true
  let c103 := new_freq > 101/2
  let c104 := new_freq < 99/2
  let c301 := isol < 1/2
  let c302crit := leak > 300
  let c302warn := leak > 100
  let c401 := inv_temp > 80
  let c402 := fan_fail = true ∧ inv_temp > 45
  let c402us := ac_power > 1/10 ∧ fan_rpm > 0 ∧ fan_rpm < 1200 ∧ inv_temp > 50
  let c201 := dc_ov
  let c105 := absQ rocof > 1
  let new_flags :=
    (if c101 then alarm_flag_bits.AC_OVERVOLTAGE else 0)
    ||| (if c102 then alarm_flag_bits.AC_UNDERVOLTAGE else 0)
    ||| (if c103 then alarm_flag_bits.FREQUENCY_FAULT
         else if c104 then alarm_flag_bits.FREQUENCY_FAULT else 0)
    ||| (if c301 then alarm_flag_bits.ISOLATION_FAULT else 0)
    ||| (if c302crit then alarm_flag_bits.LEAKAGE_CURRENT
         else if c302warn then alarm_flag_bits.LEAKAGE_CURRENT else 0)
    ||| (if c401 then alarm_flag_bits.OVERTEMPERATURE else 0)
    ||| (if c402 then alarm_flag_bits.FAN_FAULT
         else if c402us then alarm_flag_bits.FAN_FAULT else 0)
    ||| (if c201 then alarm_flag_bits.DC_OVERVOLTAGE else 0)
    ||| (if c105 then alarm_flag_bits.ROCOF_TRIP else 0)
  let fault_code := foldFault
    [(decide c101, alarm_codes.AC_OVERVOLTAGE),
     (decide c102, alarm_codes.AC_UNDERVOLTAGE),
     (decide c103, alarm_codes.AC_OVERFREQUENCY),
     (decide (¬c103 ∧ c104), alarm_codes.AC_UNDERFREQUENCY),
     (decide c301, alarm_codes.ISOLATION_FAULT),
     (decide c302crit, alarm_codes.GROUND_FAULT),
     (decide c401, alarm_codes.OVERTEMPERATURE),
     (decide c402, alarm_codes.FAN_FAULT),
     (decide c201, alarm_codes.DC_OVERVOLTAGE),
     (decide c105, alarm_codes.ROCOF_TRIP)]
  let raised : List ℕ :=
    (if c101 then [alarm_codes.AC_OVERVOLTAGE] else [])
    ++ (if c102 then [alarm_codes.AC_UNDERVOLTAGE] else [])
    ++ (if c103 then [alarm_codes.AC_OVERFREQUENCY]
        else if c104 then [alarm_codes.AC_UNDERFREQUENCY] else [])
    ++ (if c301 then [alarm_codes.ISOLATION_FAULT] else [])
    ++ (if c302crit then [alarm_codes.GROUND_FAULT]
        else if c302warn then [alarm_codes.GROUND_FAULT] else [])
    ++ (if c401 then [alarm_codes.OVERTEMPERATURE] else [])
    ++ (if c402 then [alarm_codes.FAN_FAULT]
        else if c402us then [alarm_codes.FAN_FAULT] else [])
    ++ (if c201 then [alarm_codes.DC_OVERVOLTAGE] else [])
    ++ (if c105 then [alarm_codes.ROCOF_TRIP] else [])
  -- step 12: energy accounting (5 s / 3600 per sample on the new AC power)
  let kwh_per_sample := ac_power * (5 / 3600)
  let daily := daily0 + kwh_per_sample
  let peak := if ac_power > peak0 then ac_power else peak0
  -- step 13: performance KPIs
  let ref_yield := (inp.poa_irradiance_w_m2 / 1000) * inp.nominal_power_kw
  let pr := if ref_yield > 1/10 then clampQ (ac_power / ref_yield) 0 1 else 0
  let sy := if inp.nominal_power_kw > 0 then daily / inp.nominal_power_kw else 0
  let cf := if inp.nominal_power_kw > 0 then clampQ (ac_power / inp.nominal_power_kw * 100) 0 110 else 0
  { data :=
    { power_kw := ac_power
      voltage_l1_v := v_l1
      voltage_l2_v := v_l2
      voltage_l3_v := v_l3
      current_l1_a := i_l1
      current_l2_a := i_l2
      current_l3_a := i_l3
      frequency_hz := new_freq
      rocof_hz_s := rocof
      power_factor := power_factor
      apparent_power_kva := apparent
      dc_voltage_v := dc_v
      dc_current_a := dc_a
      dc_power_kw := dc_power_ramped
      mppt_voltage_v := mppt_v
      mppt_current_a := mppt_a
      string1_voltage_v := mppt_v
      string1_current_a := mppt_a * str1_frac * 2
      string2_voltage_v := mppt_v
      string2_current_a := mppt_a * (1 - str1_frac) * 2
      temperature_c := inp.temperature_c
      inverter_temp_c := inv_temp
      ambient_temp_c := inp.ambient_temp_c
      inverter_fan_speed_rpm := fan_rpm
      fan_fault_active := fan_fail
      efficiency_percent := efficiency * 100
      poa_irradiance_w_m2 := inp.poa_irradiance_w_m2
      solar_elevation_deg := inp.solar_elevation_deg
      cloud_factor := inp.cloud_factor
      wind_speed_m_s := inp.wind_speed_m_s
      relative_humidity_pct := inp.relative_humidity_pct
      soiling_factor := inp.soiling_factor
      ac_thd_percent := thd
      dc_injection_ma := dc_inj
      isolation_resistance_mohm := isol
      leakage_current_ma := leak
      status := status
      fault_code := fault_code
      alarm_flags := new_flags
      weather_code := inp.weather_code
      is_day := inp.is_day
      daily_energy_kwh := daily
      monthly_energy_kwh := prev.monthly_energy_kwh + kwh_per_sample
      total_energy_kwh := prev.total_energy_kwh + kwh_per_sample
      co2_avoided_kg := prev.co2_avoided_kg + kwh_per_sample * (233/1000)
      daily_peak_power_kw := peak
      last_day_reset := ldr
      performance_ratio := pr
      specific_yield_kwh_kwp := sy
      capacity_factor_percent := cf
      ramp_factor := ramp }
    raised := raised }

/-- The protection-limit breach disjunction of `set_data` step 10
("status determination"), read off the freshly written record. -/
def breach (d : PlantData) : Prop :=
  (d.voltage_l1_v + d.voltage_l2_v + d.voltage_l3_v) / 3 > 253
  ∨ (d.voltage_l1_v + d.voltage_l2_v + d.voltage_l3_v) / 3 < 207
  ∨ d.frequency_hz > 101/2 ∨ d.frequency_hz < 99/2
  ∨ absQ d.rocof_hz_s > 1
  ∨ d.isolation_resistance_mohm < 1/2
  ∨ d.inverter_temp_c > 80
  ∨ (d.fan_fault_active = true ∧ d.inverter_temp_c > 80 - 5)
  ∨ d.mppt_voltage_v / (80/100) > 700 * (110/100)

instance (d : PlantData) : Decidable (breach d) := by
  unfold breach; infer_instance

/-- The fault conditions in the spec's fixed priority order (AC
overvoltage, AC undervoltage, over/under frequency, isolation, ground
fault, overtemperature, fan fault, DC overvoltage, ROCOF), evaluated on
the freshly written record, paired with their codes. -/
def faultConds (d : PlantData) : List (Bool × ℕ) :=
  [(decide ((d.voltage_l1_v + d.voltage_l2_v + d.voltage_l3_v) / 3 > 253),
      alarm_codes.AC_OVERVOLTAGE),
   (decide ((d.voltage_l1_v + d.voltage_l2_v + d.voltage_l3_v) / 3 < 207 ∧ d.is_day = true),
      alarm_codes.AC_UNDERVOLTAGE),
   (decide (d.frequency_hz > 101/2), alarm_codes.AC_OVERFREQUENCY),
   (decide (¬ d.frequency_hz > 101/2 ∧ d.frequency_hz < 99/2), alarm_codes.AC_UNDERFREQUENCY),
   (decide (d.isolation_resistance_mohm < 1/2), alarm_codes.ISOLATION_FAULT),
   (decide (d.leakage_current_ma > 300), alarm_codes.GROUND_FAULT),
   (decide (d.inverter_temp_c > 80), alarm_codes.OVERTEMPERATURE),
   (decide (d.fan_fault_active = true ∧ d.inverter_temp_c > 45), alarm_codes.FAN_FAULT),
   (decide (d.mppt_voltage_v / (80/100) > 700 * (110/100)), alarm_codes.DC_OVERVOLTAGE),
   (decide (absQ d.rocof_hz_s > 1), alarm_codes.ROCOF_TRIP)]

/-- A quiet night tick: no irradiance, all epoch hashes at mid-range, so
no fault event fires. -/
def quietInp : TickInput where
  dc_power := 0
  temperature_c := 20
  ambient_temp_c := 20
  nominal_power_kw := 100
  weather_code := 0
  is_day := false
  poa_irradiance_w_m2 := 0
  cloud_factor := 1
  solar_elevation_deg := 0
  wind_speed_m_s := 1
  relative_humidity_pct := 50
  soiling_factor := 1
  today_doy := 101
  prev_freq := some 50

/-- Mid-range values for every hash and transcendental parameter. -/
def quietNz : Noise :=
  ⟨1/2, 1/2, 1/2, 1/2, 1/2, 1/2, 1/2, 1/2, 1/2, 1/2, 1/2, 1/2, 1/2, 1/2,
   1/2, 1/2, 1/2, 1/2, 1/2⟩

/-- Hash values for a tick in whose 5-minute grid epoch a voltage-sag
event fires (`h_sag < P_VOLT_FAULT`). -/
def nightSagNz : Noise := { quietNz with h_sag := 1/100 }

/-- Hash values for a tick in whose 5-minute grid epoch a voltage-swell
event fires (`h_swell < P_VOLT_FAULT`). -/
def daySwellNz : Noise := { quietNz with h_swell := 1/100 }

/-- A daytime tick with moderate irradiance. -/
def daySwellInp : TickInput :=
  { quietInp with
      is_day := true
      dc_power := 50
      poa_irradiance_w_m2 := 500
      solar_elevation_deg := 30
      temperature_c := 25 }

/-- A previous record from an earlier day (stored ordinal 100) with
accumulated energy counters. -/
def seasonedPrev : PlantData :=
  { PlantData.initial with
      last_day_reset := 100
      daily_energy_kwh := 12
      daily_peak_power_kw := 80
      total_energy_kwh := 500 }

/-! ## Theorems -/

theorem beq_add_left (a x y : ℕ) : (a + x == a + y) = (x == y) := by
  by_cases h : x = y
  · subst h; simp
  · have h2 : a + x ≠ a + y := fun hc => h (Nat.add_left_cancel hc)
    simp [h, h2]

theorem find?_add_left (l : List (ℕ × VariableType × ℕ)) (base off : ℕ) :
    l.find? (fun e => base + e.1 == base + off) = l.find? (fun e => 0 + e.1 == 0 + off) := by
  simp only [beq_add_left]

/-- Shifting the block base out of a register-map lookup. -/
theorem regMap_shift (base off : ℕ) : regMap base (base + off) = regMap 0 (0 + off) := by
  unfold regMap
  rw [find?_add_left]

/-- Recombining the two words produced by `float_to_words` restores the
original 32-bit pattern. -/
theorem float_to_words_join (b : ℕ) (hb : b < 2 ^ 32) :
    (float_to_words b).1 * 2 ^ 16 + (float_to_words b).2 = b := by
  unfold float_to_words
  omega

/-- For a float field at offset `off`, the served words are exactly the
big-endian word pair of the field's bit pattern. -/
theorem resolve_float_words (base : ℕ) (d : DataView) (off : ℕ) (vt : VariableType)
    (hmem : (off, vt) ∈ floatFields) :
    resolve base (some d) (base + off) = (float_to_words (d.fbits vt)).1 ∧
    resolve base (some d) (base + off + 1) = (float_to_words (d.fbits vt)).2 := by
  have h1 : base + off + 1 = base + (off + 1) := by omega
  rw [h1]
  unfold resolve
  rw [regMap_shift base off, regMap_shift base (off + 1)]
  fin_cases hmem <;> exact ⟨rfl, rfl⟩

/-- C3: for every float-typed field of the register layout and every plant
snapshot, the word served at the field's offset is the high half and the
word at offset+1 the low half (big-endian word order) of the field's
32-bit IEEE-754 single pattern, and concatenating them as
`high<<16 | low` restores that pattern exactly. -/
theorem float_word_roundtrip (base : ℕ) (d : DataView) (off : ℕ) (vt : VariableType)
    (hmem : (off, vt) ∈ floatFields) (hb : d.fbits vt < 2 ^ 32) :
    resolve base (some d) (base + off) = (float_to_words (d.fbits vt)).1 ∧
    resolve base (some d) (base + off + 1) = (float_to_words (d.fbits vt)).2 ∧
    resolve base (some d) (base + off) * 2 ^ 16 + resolve base (some d) (base + off + 1)
      = d.fbits vt := by
  obtain ⟨h1, h2⟩ := resolve_float_words base d off vt hmem
  exact ⟨h1, h2, by rw [h1, h2]; exact float_to_words_join _ hb⟩

/-- Witness for C3 at the scenario of seed S4: `power_kw = 123.5` at block
base 100 is served as the big-endian words of `0x42F70000`. -/
theorem float_word_roundtrip_witness :
    resolve 100 (some wView) (100 + 0) * 2 ^ 16 + resolve 100 (some wView) (100 + 0 + 1)
      = wView.fbits .powerKw :=
  (float_word_roundtrip 100 wView 0 .powerKw (by decide) (by decide)).2.2

/-- C9: reads of unmapped registers and of registers of a plant that has
produced no data yet serve the word `0x0000`; both read function codes
always succeed (no exception is raised for any address range), and every
other function code receives an `ILLEGAL_FUNCTION` exception. -/
theorem modbus_read_error_handling (base : ℕ) (snaps : ℕ → Option DataView) :
    (∀ snap addr, regMap base addr = none → resolve base snap addr = 0)
  ∧ (∀ addr, resolve base none addr = 0)
  ∧ (∀ addr cnt, mbCall base snaps (.readInputRegisters addr cnt)
      = .ok (.readInputRegisters
          ((List.range cnt).map fun i => resolve base (snaps i) (addr + i))))
  ∧ (∀ addr cnt, mbCall base snaps (.readHoldingRegisters addr cnt)
      = .ok (.readHoldingRegisters
          ((List.range cnt).map fun i => resolve base (snaps i) (addr + i))))
  ∧ mbCall base snaps .otherFunction = .error .illegalFunction := by
  refine ⟨?_, ?_, fun _ _ => rfl, fun _ _ => rfl, rfl⟩
  · intro snap addr h
    unfold resolve
    rw [h]
  · intro addr
    unfold resolve
    rcases regMap base addr with _ | ⟨vt, widx⟩
    · rfl
    · cases vt <;> rfl

/-- Witness for C9: address 63 lies outside the 0..=62 block of a plant
based at 0 and reads as zero, and a write-style request is rejected. -/
theorem modbus_read_error_handling_witness :
    resolve 0 none 63 = 0
  ∧ mbCall 0 (fun _ => none) .otherFunction = .error .illegalFunction :=
  ⟨(modbus_read_error_handling 0 (fun _ => none)).1 none 63 (by decide),
   (modbus_read_error_handling 0 (fun _ => none)).2.2.2.2⟩

/-- Counterexample to C2: the two words of `power_kw` read by one request
can come from two different snapshots, because `MbService::call` performs
one `state.get_data` per register rather than one per request; the
concatenated pattern `0x00010004` is a value neither snapshot held. -/
theorem modbus_snapshot_counterexample :
    mbCall 0 tornSchedule (.readInputRegisters 0 2) = .ok (.readInputRegisters [1, 4])
  ∧ 1 * 2 ^ 16 + 4 ≠ snapA.fbits .powerKw
  ∧ 1 * 2 ^ 16 + 4 ≠ snapB.fbits .powerKw := by
  refine ⟨?_, by decide, by decide⟩
  rfl

/-- C2 (amended): every register of a read request is resolved against its
own `get_data` read of the shared state; whenever the two resolutions of a
float field's words observe the same snapshot — i.e. no concurrent update
lands between them — the concatenated words decode to exactly the value
that single snapshot held. -/
theorem modbus_single_snapshot_read (base off : ℕ) (vt : VariableType) (d : DataView)
    (snaps : ℕ → Option DataView)
    (hmem : (off, vt) ∈ floatFields) (hb : d.fbits vt < 2 ^ 32)
    (hconst : ∀ i, snaps i = some d) :
    mbCall base snaps (.readInputRegisters (base + off) 2)
      = .ok (.readInputRegisters
          [resolve base (some d) (base + off), resolve base (some d) (base + off + 1)])
  ∧ resolve base (some d) (base + off) * 2 ^ 16 + resolve base (some d) (base + off + 1)
      = d.fbits vt := by
  constructor
  · simp only [mbCall, List.range_succ, List.range_zero, List.nil_append,
      List.cons_append, List.map_cons, List.map_nil, hconst]
    rw [Nat.add_zero]
  · obtain ⟨h1, h2⟩ := resolve_float_words base d off vt hmem
    rw [h1, h2]
    exact float_to_words_join _ hb

/-- Witness for C2's amended statement on a constant (update-free)
schedule. -/
theorem modbus_single_snapshot_read_witness :
    resolve 0 (some snapA) (0 + 0) * 2 ^ 16 + resolve 0 (some snapA) (0 + 0 + 1)
      = snapA.fbits .powerKw :=
  (modbus_single_snapshot_read 0 0 .powerKw snapA (fun _ => some snapA)
    (by decide) (by decide) (fun _ => rfl)).2

/-- Counterexample to C5: for `G = 5 W/m²` the code guards the cloud-factor
shortcut behind `g > 10.0` and yields `0.0`, not `min(1, G/1000) = 0.005`
as the claim states. -/
theorem online_cloud_factor_counterexample :
    (get_current_data_success 5 20 0 true 100).cloud_factor = 0
  ∧ min (1 : ℚ) (5 / 1000) ≠ 0 := by
  constructor
  · rfl
  · rw [min_eq_right (by norm_num : (5 : ℚ) / 1000 ≤ 1)]
    norm_num

/-- C5 (amended): a successfully parsed online response always carries
`solar_elevation_deg = 0`; its cloud factor equals `min(1, G/1000)` only
when `G > 10 W/m²` (hence `G/1000` exactly when `10 < G ≤ 1000`), and is
`0` for `G ≤ 10`. -/
theorem online_cloud_factor (g ambient_t : ℚ) (weather_c : ℕ) (is_day : Bool)
    (pnom : ℚ) :
    (get_current_data_success g ambient_t weather_c is_day pnom).solar_elevation_deg = 0
  ∧ (10 < g → g ≤ 1000 →
      (get_current_data_success g ambient_t weather_c is_day pnom).cloud_factor = g / 1000)
  ∧ (g ≤ 10 →
      (get_current_data_success g ambient_t weather_c is_day pnom).cloud_factor = 0) := by
  refine ⟨rfl, ?_, ?_⟩
  · intro h10 h1000
    show (if g > 10 then minQ (g / 1000) 1 else 0) = g / 1000
    rw [if_pos h10]
    unfold minQ
    split_ifs <;> linarith
  · intro h10
    show (if g > 10 then minQ (g / 1000) 1 else 0) = 0
    rw [if_neg (by linarith)]

/-- Witness for C5's amended statement at `G = 500 W/m²`. -/
theorem online_cloud_factor_witness :
    (get_current_data_success 500 20 0 true 100).cloud_factor = 500 / 1000 :=
  (online_cloud_factor 500 20 0 true 100).2.1 (by norm_num) (by norm_num)

/-- C8: whenever the computed solar elevation is not above the horizon,
the clear-sky branch is skipped, the plane-of-array irradiance is zero,
and the estimate reports exactly zero power and `is_day = false` — for
every latitude, nominal power and abstracted transcendental values. -/
theorem night_zero_power (nominal_power_kw : ℚ) (p : EstParams)
    (h : p.alpha_deg ≤ 0) :
    (estimate nominal_power_kw p).power_kw = 0
  ∧ (estimate nominal_power_kw p).is_day = false
  ∧ (estimate nominal_power_kw p).ghi_w_m2 = 0 := by
  have hng : ¬ p.alpha_deg > 1/10 := by linarith
  have hn0 : ¬ p.alpha_deg > 0 := by linarith
  refine ⟨?_, ?_, ?_⟩ <;>
    · simp only [estimate, if_neg hng]
      simp [maxQ, hn0]

/-- Witness for C8: a sun 5° below the horizon. -/
theorem night_zero_power_witness :
    (estimate 1000
      { lat_deg := 45, doy := 172, alpha_deg := -5, sin_alpha := -87/1000
        cos_alpha := 996/1000, clear_sky := (900, 800), tilt_cos := 7/10
        tilt_sin := 7/10, az_diff_cos := 1, cloud_base := 6/10
        trans_val := 1/2, ambient_temp_c := 15, wind_speed := 3
        relative_humidity := 70, soiling_factor := 95/100 }).power_kw = 0 :=
  (night_zero_power 1000 _ (by norm_num)).1

/-! ### Support lemmas for the state engine -/

theorem le_maxQ_right (a b : ℚ) : b ≤ maxQ a b := by
  unfold maxQ; split_ifs <;> linarith

theorem le_maxQ_left (a b : ℚ) : a ≤ maxQ a b := by
  unfold maxQ; split_ifs <;> linarith

theorem maxQ_le (a b c : ℚ) (h1 : a ≤ c) (h2 : b ≤ c) : maxQ a b ≤ c := by
  unfold maxQ; split_ifs <;> linarith

theorem le_clampQ (x lo hi : ℚ) (h : lo ≤ hi) : lo ≤ clampQ x lo hi := by
  unfold clampQ; split_ifs <;> linarith

theorem clampQ_le (x lo hi : ℚ) (h : lo ≤ hi) : clampQ x lo hi ≤ hi := by
  unfold clampQ; split_ifs <;> linarith

theorem foldl_fault_stable (l : List (Bool × ℕ)) (acc : ℕ) (h : acc ≠ alarm_codes.NONE) :
    l.foldl (fun a p => if p.1 then try_set_fault a p.2 else a) acc = acc := by
  induction l with
  | nil => rfl
  | cons p t ih =>
      have hs : (if p.1 = true then try_set_fault acc p.2 else acc) = acc := by
        by_cases hb : p.1 = true
        · simp only [if_pos hb]
          unfold try_set_fault
          exact if_neg h
        · simp only [if_neg hb]
      simp only [List.foldl, hs]
      exact ih

/-- The ordered fold of guarded `try_set_fault` calls computes exactly the
first-match priority assignment, provided no listed code is the sentinel
`NONE`. -/
theorem foldFault_eq_firstFault (l : List (Bool × ℕ))
    (h : ∀ p ∈ l, p.2 ≠ alarm_codes.NONE) : foldFault l = firstFault l := by
  induction l with
  | nil => rfl
  | cons q t ih =>
      rcases q with ⟨b, c⟩
      have hc : c ≠ alarm_codes.NONE := h (b, c) (List.mem_cons_self _ _)
      unfold foldFault firstFault
      cases b
      · simp only [List.foldl, Bool.false_eq_true, if_false]
        exact ih fun p hp => h p (List.mem_cons_of_mem _ hp)
      · simp only [List.foldl, if_true]
        unfold try_set_fault
        rw [if_pos rfl]
        exact foldl_fault_stable t c hc

theorem firstFault_all_false (l : List (Bool × ℕ)) (h : ∀ p ∈ l, p.1 = false) :
    firstFault l = alarm_codes.NONE := by
  induction l with
  | nil => rfl
  | cons q t ih =>
      rcases q with ⟨b, c⟩
      have hb : b = false := h (b, c) (List.mem_cons_self _ _)
      subst hb
      unfold firstFault
      simp only [Bool.false_eq_true, if_false]
      exact ih fun p hp => h p (List.mem_cons_of_mem _ hp)

theorem firstFault_ne_zero (l : List (Bool × ℕ))
    (h : ∀ p ∈ l, p.2 ≠ alarm_codes.NONE) (he : ∃ p ∈ l, p.1 = true) :
    firstFault l ≠ alarm_codes.NONE := by
  induction l with
  | nil =>
      rcases he with ⟨p, hp, _⟩
      cases hp
  | cons q t ih =>
      rcases q with ⟨b, c⟩
      unfold firstFault
      cases b
      · simp only [Bool.false_eq_true, if_false]
        apply ih fun p hp => h p (List.mem_cons_of_mem _ hp)
        rcases he with ⟨p, hp, hpt⟩
        rcases List.mem_cons.mp hp with rfl | hmem
        · cases hpt
        · exact ⟨p, hmem, hpt⟩
      · rw [if_pos rfl]
        exact h (true, c) (List.mem_cons_self _ _)

theorem firstFault_ne_code (l : List (Bool × ℕ)) (c : ℕ) (hc : c ≠ alarm_codes.NONE)
    (h : ∀ p ∈ l, p.2 = c → p.1 = false) : firstFault l ≠ c := by
  induction l with
  | nil => exact fun he => hc he.symm
  | cons q t ih =>
      rcases q with ⟨b, k⟩
      unfold firstFault
      by_cases hb : b = true
      · rw [if_pos hb]
        intro hkc
        have := h (b, k) (List.mem_cons_self _ _) hkc
        rw [hb] at this
        cases this
      · rw [if_neg hb]
        exact ih fun p hp hpc => h p (List.mem_cons_of_mem _ hp) hpc

theorem faultConds_codes_ne (d : PlantData) :
    ∀ p ∈ faultConds d, p.2 ≠ alarm_codes.NONE := by
  intro p hp
  fin_cases hp <;>
    norm_num [alarm_codes.AC_OVERVOLTAGE, alarm_codes.AC_UNDERVOLTAGE,
      alarm_codes.AC_OVERFREQUENCY, alarm_codes.AC_UNDERFREQUENCY,
      alarm_codes.ROCOF_TRIP, alarm_codes.DC_OVERVOLTAGE,
      alarm_codes.ISOLATION_FAULT, alarm_codes.GROUND_FAULT,
      alarm_codes.OVERTEMPERATURE, alarm_codes.FAN_FAULT, alarm_codes.NONE]

/-- The status if-chain equals the Fault code 2 exactly when the breach
condition holds. -/
theorem status_chain_eq_two (P B1 B2 B3 B4 : Prop) [Decidable P] [Decidable B1]
    [Decidable B2] [Decidable B3] [Decidable B4] (ac lf : ℚ) :
    ((if P then 2 else if B1 then 0 else if B2 then 4 else if B3 then 3
      else if ac > 1/1000 then (if lf < 999/1000 then 5 else 1)
      else if B4 then 4 else 0 : ℕ) = 2) ↔ P := by
  split_ifs <;> simp_all

/-- After `set_data`, the stored status is 2 exactly when the stored record
breaches a protection limit. -/
theorem set_data_status_iff (prev : PlantData) (inp : TickInput) (nz : Noise) :
    ((set_data prev inp nz).data.status = 2) ↔ breach ((set_data prev inp nz).data) := by
  unfold set_data breach
  dsimp only
  exact status_chain_eq_two _ _ _ _ _ _ _

/-- After `set_data`, the stored fault code is the first-match priority
assignment over the stored record. -/
theorem set_data_fault_code (prev : PlantData) (inp : TickInput) (nz : Noise) :
    (set_data prev inp nz).data.fault_code
      = firstFault (faultConds ((set_data prev inp nz).data)) := by
  unfold set_data faultConds
  dsimp only
  exact foldFault_eq_firstFault _ (faultConds_codes_ne ((set_data prev inp nz).data))

/-- On a daytime record, every protection-limit breach makes some fault
condition of the priority list fire, so the assigned code is non-zero. -/
theorem breach_day_fault_code (d : PlantData) (hday : d.is_day = true) (hb : breach d) :
    firstFault (faultConds d) ≠ alarm_codes.NONE := by
  unfold breach at hb
  apply firstFault_ne_zero _ (faultConds_codes_ne d)
  rcases hb with h|h|h|h|h|h|h|h|h
  · exact ⟨(decide ((d.voltage_l1_v + d.voltage_l2_v + d.voltage_l3_v) / 3 > 253),
      alarm_codes.AC_OVERVOLTAGE), by simp [faultConds], by simpa using h⟩
  · exact ⟨(decide ((d.voltage_l1_v + d.voltage_l2_v + d.voltage_l3_v) / 3 < 207
        ∧ d.is_day = true), alarm_codes.AC_UNDERVOLTAGE),
      by simp [faultConds], by simp only [decide_eq_true_eq]; exact ⟨h, hday⟩⟩
  · exact ⟨(decide (d.frequency_hz > 101/2), alarm_codes.AC_OVERFREQUENCY),
      by simp [faultConds], by simpa using h⟩
  · exact ⟨(decide (¬ d.frequency_hz > 101/2 ∧ d.frequency_hz < 99/2),
        alarm_codes.AC_UNDERFREQUENCY),
      by simp [faultConds], by simp only [decide_eq_true_eq]; exact ⟨by linarith, h⟩⟩
  · exact ⟨(decide (absQ d.rocof_hz_s > 1), alarm_codes.ROCOF_TRIP),
      by simp [faultConds], by simpa using h⟩
  · exact ⟨(decide (d.isolation_resistance_mohm < 1/2), alarm_codes.ISOLATION_FAULT),
      by simp [faultConds], by simpa using h⟩
  · exact ⟨(decide (d.inverter_temp_c > 80), alarm_codes.OVERTEMPERATURE),
      by simp [faultConds], by simpa using h⟩
  · exact ⟨(decide (d.fan_fault_active = true ∧ d.inverter_temp_c > 45),
        alarm_codes.FAN_FAULT),
      by simp [faultConds], by simp only [decide_eq_true_eq]; exact ⟨h.1, by linarith [h.2]⟩⟩
  · exact ⟨(decide (d.mppt_voltage_v / (80/100) > 700 * (110/100)),
        alarm_codes.DC_OVERVOLTAGE), by simp [faultConds], by simpa using h⟩

/-- Counterexample to C1: a night tick whose 5-minute epoch carries a
voltage-sag event.  The average phase voltage drops below the 207 V
undervoltage limit, so the status is driven to 2 (Fault); but the
undervoltage alarm branch additionally requires `is_day`, so no alarm
flag bit is set and no fault code is assigned — the claimed equivalence
fails. -/
theorem status_flag_coherence_counterexample :
    ¬ ((set_data PlantData.initial quietInp nightSagNz).data.status = 2
        ↔ ((set_data PlantData.initial quietInp nightSagNz).data.alarm_flags ≠ 0
            ∨ (set_data PlantData.initial quietInp nightSagNz).data.fault_code ≠ 0)) := by
  have h1 : (set_data PlantData.initial quietInp nightSagNz).data.status = 2 := by
    norm_num [set_data, PlantData.initial, quietInp, nightSagNz, quietNz, clampQ, maxQ, absQ]
  have h2 : (set_data PlantData.initial quietInp nightSagNz).data.alarm_flags = 0 := by
    norm_num [set_data, PlantData.initial, quietInp, nightSagNz, quietNz, clampQ, maxQ, absQ]
  have h3 : (set_data PlantData.initial quietInp nightSagNz).data.fault_code = 0 := by
    norm_num [set_data, PlantData.initial, quietInp, nightSagNz, quietNz, clampQ, maxQ, absQ,
      foldFault, try_set_fault, alarm_codes.NONE, List.foldl]
  intro hiff
  rcases hiff.mp h1 with hc | hc
  · exact hc h2
  · exact hc h3

/-- C1 (amended): immediately after one `set_data` update, the status is
2 (Fault) exactly when the stored record breaches one of the protection
limits; and on a daytime tick, status 2 guarantees a non-zero alarm mask
or fault code.  (On a night tick an undervoltage breach yields status 2
with `alarm_flags = 0` and `fault_code = 0`, and conversely a leakage
warning or fan alarm can set flag bits while the status stays below 2.) -/
theorem status_flag_coherence (prev : PlantData) (inp : TickInput) (nz : Noise) :
    ((set_data prev inp nz).data.status = 2 ↔ breach ((set_data prev inp nz).data))
  ∧ (inp.is_day = true → (set_data prev inp nz).data.status = 2 →
      ((set_data prev inp nz).data.alarm_flags ≠ 0
        ∨ (set_data prev inp nz).data.fault_code ≠ 0)) := by
  have hiff := set_data_status_iff prev inp nz
  refine ⟨hiff, fun hday h2 => Or.inr ?_⟩
  rw [set_data_fault_code prev inp nz]
  have hd : (set_data prev inp nz).data.is_day = inp.is_day := rfl
  exact breach_day_fault_code _ (by rw [hd, hday]) (hiff.mp h2)

/-- Witness for C1's amended statement: a daytime voltage swell drives
status to 2 and assigns a code. -/
theorem status_flag_coherence_witness :
    (set_data PlantData.initial daySwellInp daySwellNz).data.alarm_flags ≠ 0
  ∨ (set_data PlantData.initial daySwellInp daySwellNz).data.fault_code ≠ 0 :=
  (status_flag_coherence PlantData.initial daySwellInp daySwellNz).2 rfl (by
    norm_num [set_data, PlantData.initial, daySwellInp, daySwellNz, quietInp, quietNz,
      clampQ, maxQ, absQ])

/-- C4: the fault code written by one tick is the first-match assignment
over the fixed priority list (AC overvoltage, AC undervoltage, over/under
frequency, isolation, ground fault, overtemperature, fan, DC overvoltage,
ROCOF): the sequential guarded `try_set_fault` calls never overwrite an
assigned code, and when no condition fires the code is 0. -/
theorem fault_code_priority (prev : PlantData) (inp : TickInput) (nz : Noise) :
    (set_data prev inp nz).data.fault_code
        = firstFault (faultConds ((set_data prev inp nz).data))
  ∧ ((∀ p ∈ faultConds ((set_data prev inp nz).data), p.1 = false) →
      (set_data prev inp nz).data.fault_code = alarm_codes.NONE) := by
  refine ⟨set_data_fault_code prev inp nz, fun hall => ?_⟩
  rw [set_data_fault_code prev inp nz]
  exact firstFault_all_false _ hall

set_option maxHeartbeats 1000000 in
/-- Witness for C4 on a quiet tick: no condition fires and the stored
fault code is 0. -/
theorem fault_code_priority_witness :
    (set_data PlantData.initial quietInp quietNz).data.fault_code = alarm_codes.NONE := by
  apply (fault_code_priority PlantData.initial quietInp quietNz).2
  have hlist : faultConds ((set_data PlantData.initial quietInp quietNz).data)
      = [(false, alarm_codes.AC_OVERVOLTAGE), (false, alarm_codes.AC_UNDERVOLTAGE),
         (false, alarm_codes.AC_OVERFREQUENCY), (false, alarm_codes.AC_UNDERFREQUENCY),
         (false, alarm_codes.ISOLATION_FAULT), (false, alarm_codes.GROUND_FAULT),
         (false, alarm_codes.OVERTEMPERATURE), (false, alarm_codes.FAN_FAULT),
         (false, alarm_codes.DC_OVERVOLTAGE), (false, alarm_codes.ROCOF_TRIP)] := by
    norm_num [faultConds, set_data, PlantData.initial, quietInp, quietNz, clampQ, maxQ, absQ]
  rw [hlist]
  intro p hp
  fin_cases hp <;> rfl

theorem if_gt_eq_maxQ (x : ℚ) : (if x > 0 then x else 0) = maxQ x 0 := by
  unfold maxQ
  by_cases hx : x > 0
  · rw [if_pos hx, if_neg (by linarith)]
  · rw [if_neg hx]
    by_cases hx0 : x < 0
    · rw [if_pos hx0]
    · rw [if_neg hx0]
      linarith [le_of_not_lt hx, le_of_not_lt hx0]

theorem testBit8_ite (c : Prop) [Decidable c] (a b : ℕ)
    (ha : Nat.testBit a 8 = false) (hb : Nat.testBit b 8 = false) :
    Nat.testBit (if c then a else b) 8 = false := by
  by_cases hc : c
  · rw [if_pos hc]; exact ha
  · rw [if_neg hc]; exact hb

theorem not_mem_ite_list (x : ℕ) (c : Prop) [Decidable c] (a b : List ℕ)
    (ha : x ∉ a) (hb : x ∉ b) : x ∉ (if c then a else b) := by
  by_cases hc : c
  · rw [if_pos hc]; exact ha
  · rw [if_neg hc]; exact hb

/-- C6: when the stored day ordinal differs from the tick's day-of-year,
`daily_energy_kwh` and `daily_peak_power_kw` are cleared before the
tick's energy is accumulated and the ordinal is updated;
`total_energy_kwh` never decreases across a tick with non-negative DC
input; and the very first tick of a record (sentinel ordinal 0) stores
the ordinal without clearing. -/
theorem midnight_reset (prev : PlantData) (inp : TickInput) (nz : Noise) :
    (prev.last_day_reset ≠ 0 → prev.last_day_reset ≠ inp.today_doy →
        (set_data prev inp nz).data.daily_energy_kwh
            = (set_data prev inp nz).data.power_kw * (5 / 3600)
      ∧ (set_data prev inp nz).data.daily_peak_power_kw
            = maxQ ((set_data prev inp nz).data.power_kw) 0
      ∧ (set_data prev inp nz).data.last_day_reset = inp.today_doy)
  ∧ (0 ≤ inp.dc_power →
        prev.total_energy_kwh ≤ (set_data prev inp nz).data.total_energy_kwh)
  ∧ (prev.last_day_reset = 0 →
        (set_data prev inp nz).data.last_day_reset = inp.today_doy
      ∧ (set_data prev inp nz).data.daily_energy_kwh
            = prev.daily_energy_kwh + (set_data prev inp nz).data.power_kw * (5 / 3600)) := by
  refine ⟨fun h0 hne => ?_, fun hdc => ?_, fun h0 => ?_⟩
  · unfold set_data
    dsimp only
    refine ⟨?_, ?_, ?_⟩
    · simp only [if_neg h0, if_pos hne]
      exact zero_add _
    · simp only [if_neg h0, if_pos hne]
      exact if_gt_eq_maxQ _
    · simp only [if_neg h0, if_pos hne]
  · unfold set_data
    dsimp only
    refine le_add_of_nonneg_right
      (mul_nonneg (mul_nonneg (mul_nonneg hdc ?_) ?_) (by norm_num))
    · exact le_clampQ _ _ _ (by norm_num)
    · exact le_clampQ _ _ _ (by norm_num)
  · unfold set_data
    dsimp only
    refine ⟨?_, ?_⟩ <;> simp only [if_pos h0]

/-- Witness for C6 at a tick whose day ordinal (101) differs from the
stored one (100): the daily counter restarts from this tick's energy. -/
theorem midnight_reset_witness :
    (set_data seasonedPrev quietInp quietNz).data.daily_energy_kwh
      = (set_data seasonedPrev quietInp quietNz).data.power_kw * (5 / 3600) :=
  ((midnight_reset seasonedPrev quietInp quietNz).1
    (by norm_num [seasonedPrev, PlantData.initial])
    (by norm_num [seasonedPrev, PlantData.initial, quietInp])).1

theorem ramp_bounds_aux (r t : ℚ) (hr0 : 0 ≤ r) (hr1 : r ≤ 1) (ht0 : 0 ≤ t) (ht1 : t ≤ 1) :
    |clampQ (r + (t - r) * (8/100)) 0 1 - r| ≤ 8/100
  ∧ 0 ≤ clampQ (r + (t - r) * (8/100)) 0 1
  ∧ clampQ (r + (t - r) * (8/100)) 0 1 ≤ 1 := by
  have hx0 : 0 ≤ r + (t - r) * (8/100) := by linarith
  have hx1 : r + (t - r) * (8/100) ≤ 1 := by linarith
  unfold clampQ
  rw [if_neg (by linarith), if_neg (by linarith)]
  refine ⟨?_, hx0, hx1⟩
  rw [abs_le]
  constructor <;> linarith

/-- C7: one MPPT ramp update moves the ramp factor by at most 0.08, keeps
it in `[0, 1]`, and holds the current value inside the hysteresis band
(neither the start condition `POA ≥ 30 ∧ is_day` nor the stop condition
`POA < 15`). -/
theorem mppt_ramp_step (prev : PlantData) (inp : TickInput) (nz : Noise)
    (h0 : 0 ≤ prev.ramp_factor) (h1 : prev.ramp_factor ≤ 1) :
    |(set_data prev inp nz).data.ramp_factor - prev.ramp_factor| ≤ 8/100
  ∧ 0 ≤ (set_data prev inp nz).data.ramp_factor
  ∧ (set_data prev inp nz).data.ramp_factor ≤ 1
  ∧ (¬ (inp.poa_irradiance_w_m2 ≥ 30 ∧ inp.is_day = true) →
      ¬ inp.poa_irradiance_w_m2 < 15 →
      (set_data prev inp nz).data.ramp_factor = prev.ramp_factor) := by
  have ht0 : 0 ≤ (if inp.poa_irradiance_w_m2 ≥ 30 ∧ inp.is_day = true then (1 : ℚ)
      else if inp.poa_irradiance_w_m2 < 15 then 0 else prev.ramp_factor) := by
    split_ifs <;> first | exact h0 | norm_num
  have ht1 : (if inp.poa_irradiance_w_m2 ≥ 30 ∧ inp.is_day = true then (1 : ℚ)
      else if inp.poa_irradiance_w_m2 < 15 then 0 else prev.ramp_factor) ≤ 1 := by
    split_ifs <;> first | exact h1 | norm_num
  have haux := ramp_bounds_aux prev.ramp_factor _ h0 h1 ht0 ht1
  unfold set_data
  dsimp only
  refine ⟨haux.1, haux.2.1, haux.2.2, fun hn1 hn2 => ?_⟩
  rw [if_neg hn1, if_neg hn2]
  have hx : prev.ramp_factor + (prev.ramp_factor - prev.ramp_factor) * (8/100)
      = prev.ramp_factor := by ring
  rw [hx]
  unfold clampQ
  rw [if_neg (by linarith), if_neg (by linarith)]

/-- Witness for C7 starting from a freshly created record. -/
theorem mppt_ramp_step_witness :
    0 ≤ (set_data PlantData.initial quietInp quietNz).data.ramp_factor :=
  (mppt_ramp_step PlantData.initial quietInp quietNz
    (by norm_num [PlantData.initial]) (by norm_num [PlantData.initial])).2.1

theorem leak_clamp_bound (b h : ℚ) (hb : b ≤ 788/10) (h0 : 0 ≤ h) (h1 : h < 1) :
    clampQ (b + h * (1/2)) (5/100) 350 < 793/10 := by
  unfold clampQ
  split_ifs <;> linarith

theorem leak_base_bound (i hum : ℚ) (hi : 1/20 ≤ i) (hum2 : hum ≤ 1576/1000)
    (hum1 : 0 ≤ hum) :
    1 / maxQ i (1/100) * (25/10) * hum ≤ 788/10 := by
  have hmax : maxQ i (1/100) = i := by
    unfold maxQ; split_ifs <;> linarith
  rw [hmax]
  have hipos : (0 : ℚ) < i := by linarith
  have hinv : 1 / i ≤ 20 := by
    rw [div_le_iff hipos]; linarith
  have hinv0 : 0 ≤ 1 / i := by positivity
  nlinarith

/-- The isolation floor (0.05 MΩ), the humidity factor cap at 98 % RH and
the hash-noise bound keep the modelled leakage strictly below 79.3 mA. -/
theorem set_data_leak_lt (prev : PlantData) (inp : TickInput) (nz : Noise)
    (hrh : inp.relative_humidity_pct ≤ 98) (h0 : 0 ≤ nz.h_leak) (h1 : nz.h_leak < 1) :
    (set_data prev inp nz).data.leakage_current_ma < 793/10 := by
  unfold set_data
  dsimp only
  apply leak_clamp_bound _ _ ?_ h0 h1
  apply leak_base_bound
  · calc (1/20 : ℚ) = 5/100 := by norm_num
      _ ≤ _ := le_maxQ_right _ _
  · have h48 : maxQ (inp.relative_humidity_pct - 50) 0 ≤ 48 :=
      maxQ_le _ _ _ (by linarith) (by norm_num)
    linarith
  · have := le_maxQ_right (inp.relative_humidity_pct - 50) 0
    linarith

theorem set_data_leak_flag_clear (prev : PlantData) (inp : TickInput) (nz : Noise)
    (h : ¬ (set_data prev inp nz).data.leakage_current_ma > 100) :
    Nat.testBit ((set_data prev inp nz).data.alarm_flags) 8 = false := by
  have h300 : ¬ (set_data prev inp nz).data.leakage_current_ma > 300 :=
    fun hc => h (by linarith)
  unfold set_data at h h300 ⊢
  dsimp only at h h300 ⊢
  rw [if_neg h300, if_neg h]
  simp only [Nat.testBit_lor, Bool.or_eq_false_iff]
  exact ⟨⟨⟨⟨⟨⟨⟨⟨testBit8_ite _ _ _ (by decide) (by decide),
    testBit8_ite _ _ _ (by decide) (by decide)⟩,
    testBit8_ite _ _ _ (by decide) (testBit8_ite _ _ _ (by decide) (by decide))⟩,
    testBit8_ite _ _ _ (by decide) (by decide)⟩,
    by decide⟩,
    testBit8_ite _ _ _ (by decide) (by decide)⟩,
    testBit8_ite _ _ _ (by decide) (testBit8_ite _ _ _ (by decide) (by decide))⟩,
    testBit8_ite _ _ _ (by decide) (by decide)⟩,
    testBit8_ite _ _ _ (by decide) (by decide)⟩

theorem set_data_leak_not_raised (prev : PlantData) (inp : TickInput) (nz : Noise)
    (h : ¬ (set_data prev inp nz).data.leakage_current_ma > 100) :
    alarm_codes.GROUND_FAULT ∉ (set_data prev inp nz).raised := by
  have h300 : ¬ (set_data prev inp nz).data.leakage_current_ma > 300 :=
    fun hc => h (by linarith)
  unfold set_data at h h300 ⊢
  dsimp only at h h300 ⊢
  rw [if_neg h300, if_neg h]
  simp only [List.mem_append, not_or]
  refine ⟨⟨⟨⟨⟨⟨⟨⟨?_, ?_⟩, ?_⟩, ?_⟩, ?_⟩, ?_⟩, ?_⟩, ?_⟩, ?_⟩
  · exact not_mem_ite_list _ _ _ _ (by decide) (by simp)
  · exact not_mem_ite_list _ _ _ _ (by decide) (by simp)
  · exact not_mem_ite_list _ _ _ _ (by decide)
      (not_mem_ite_list _ _ _ _ (by decide) (by simp))
  · exact not_mem_ite_list _ _ _ _ (by decide) (by simp)
  · simp
  · exact not_mem_ite_list _ _ _ _ (by decide) (by simp)
  · exact not_mem_ite_list _ _ _ _ (by decide)
      (not_mem_ite_list _ _ _ _ (by decide) (by simp))
  · exact not_mem_ite_list _ _ _ _ (by decide) (by simp)
  · exact not_mem_ite_list _ _ _ _ (by decide) (by simp)

theorem faultConds_ground_fault_false (d : PlantData)
    (h : ¬ d.leakage_current_ma > 300) :
    ∀ p ∈ faultConds d, p.2 = alarm_codes.GROUND_FAULT → p.1 = false := by
  intro p hp hpc
  fin_cases hp
  · exact absurd hpc (by norm_num [alarm_codes.AC_OVERVOLTAGE, alarm_codes.GROUND_FAULT])
  · exact absurd hpc (by norm_num [alarm_codes.AC_UNDERVOLTAGE, alarm_codes.GROUND_FAULT])
  · exact absurd hpc (by norm_num [alarm_codes.AC_OVERFREQUENCY, alarm_codes.GROUND_FAULT])
  · exact absurd hpc (by norm_num [alarm_codes.AC_UNDERFREQUENCY, alarm_codes.GROUND_FAULT])
  · exact absurd hpc (by norm_num [alarm_codes.ISOLATION_FAULT, alarm_codes.GROUND_FAULT])
  · simpa using h
  · exact absurd hpc (by norm_num [alarm_codes.OVERTEMPERATURE, alarm_codes.GROUND_FAULT])
  · exact absurd hpc (by norm_num [alarm_codes.FAN_FAULT, alarm_codes.GROUND_FAULT])
  · exact absurd hpc (by norm_num [alarm_codes.DC_OVERVOLTAGE, alarm_codes.GROUND_FAULT])
  · exact absurd hpc (by norm_num [alarm_codes.ROCOF_TRIP, alarm_codes.GROUND_FAULT])

/-- C10: with relative humidity at most 98 % the leakage current of a
tick stays strictly below 79.3 mA — hence below both the 100 mA warning
and the 300 mA trip thresholds — so the ground-fault alarm (code 302) is
never raised, its flag bit (bit 8 of the mask) is never set, and the
stored fault code is never 302. -/
theorem leakage_never_ground_fault (prev : PlantData) (inp : TickInput) (nz : Noise)
    (hrh : inp.relative_humidity_pct ≤ 98) (h0 : 0 ≤ nz.h_leak) (h1 : nz.h_leak < 1) :
    (set_data prev inp nz).data.leakage_current_ma < 793/10
  ∧ (set_data prev inp nz).data.leakage_current_ma < 100
  ∧ Nat.testBit ((set_data prev inp nz).data.alarm_flags) 8 = false
  ∧ (set_data prev inp nz).data.fault_code ≠ alarm_codes.GROUND_FAULT
  ∧ alarm_codes.GROUND_FAULT ∉ (set_data prev inp nz).raised := by
  have hlt := set_data_leak_lt prev inp nz hrh h0 h1
  have hlt100 : (set_data prev inp nz).data.leakage_current_ma < 100 := by linarith
  have hn100 : ¬ (set_data prev inp nz).data.leakage_current_ma > 100 := by linarith
  have hn300 : ¬ (set_data prev inp nz).data.leakage_current_ma > 300 := by linarith
  refine ⟨hlt, hlt100, set_data_leak_flag_clear prev inp nz hn100, ?_,
    set_data_leak_not_raised prev inp nz hn100⟩
  rw [set_data_fault_code prev inp nz]
  exact firstFault_ne_code _ _
    (by norm_num [alarm_codes.GROUND_FAULT, alarm_codes.NONE])
    (faultConds_ground_fault_false _ hn300)

/-- Witness for C10 on a quiet tick at 50 % relative humidity. -/
theorem leakage_never_ground_fault_witness :
    (set_data PlantData.initial quietInp quietNz).data.leakage_current_ma < 793/10 :=
  (leakage_never_ground_fault PlantData.initial quietInp quietNz
    (by norm_num [quietInp]) (by norm_num [quietNz]) (by norm_num [quietNz])).1

end SolarSim
